import Mathlib

/-!
Shallow embedding of the risk-managed trade execution engine of the
quotexbot repository (src/trade.py, configuration defaults from
src/settings.py).  Machine reals are modelled by rationals; Python dicts
used as keyed maps are modelled by total functions with the default the
code supplies at lookup (`last_trade_time.get(asset, 0)`).  Broker
responses are modelled by explicit result types covering every shape the
code distinguishes.
-/

/-- Configuration values read from settings.py (environment defaults in
parentheses in the source). -/
structure Config where
  tradeEnabled : Bool
  basePercent : ℚ
  minPercent : ℚ
  maxPercent : ℚ
  tradeDuration : ℕ
  rsiBuy : ℚ
  rsiSell : ℚ
  atrMax : ℚ
  cooldown : ℤ
  dailyLossLimit : ℚ
  lossThreshold : ℕ
  winThreshold : ℕ

/-- One tracked order, mirroring the order_details dict built at
submission time in execute_trades. -/
structure Order where
  id : ℕ
  asset : String
  direction : Bool   -- true = call, false = put
  amount : ℚ
  openTimestamp : Option ℤ
  duration : ℕ
  percentProfit : ℚ
  percentLoss : ℚ
deriving DecidableEq

/-- The raw value of result_data.get("win") as the code distinguishes it:
True, False, None, or anything else. -/
inductive WinRaw where
  | t
  | f
  | n
  | other
deriving DecidableEq

/-- What client.check_win can produce, as the code distinguishes the
shapes: a dict (with game_state, win and profitAmount), the value None,
the value False, an unexpected type, or a raised exception. -/
inductive CheckWinResult where
  | dict (gameState : ℤ) (win : WinRaw) (profitAmount : ℚ)
  | noneVal
  | falseVal
  | badType
  | exn
deriving DecidableEq

/-- What client.buy can produce: success with a dict carrying an order
id (plus optional openTimestamp / percentProfit / percentLoss /
accountBalance), success with a dict lacking an id, a non-success or
non-dict response (rejection), or a raised exception. -/
inductive BuyResult where
  | ok (id : ℕ) (openTimestamp : Option ℤ) (percentProfit : ℚ)
       (percentLoss : ℚ) (accountBalance : Option ℚ)
  | okNoId
  | rejected
  | exn

/-- Indicator values the cycle reads for an asset; none models a missing
or non-numeric entry, exactly the condition the code skips on. -/
structure IndicatorSnapshot where
  rsi : Option ℚ
  sma : Option ℚ
  atr : Option ℚ

/-- The per-cycle external world: the current unix time, the result of
client.get_balance (none = exception or non-numeric), the outcome oracle
client.check_win keyed by order id, the resolved realtime price per
asset (none = unavailable, malformed, or exception), and the result of
client.buy per asset. -/
structure CycleEnv where
  now : ℤ
  balance : Option ℚ
  checkWin : ℕ → CheckWinResult
  price : String → Option ℚ
  buy : String → BuyResult

/-- The mutable TradingState class of trade.py. -/
structure TradingState where
  open_orders : List Order
  last_trade_time : String → ℤ
  daily_loss : ℚ
  initial_daily_balance : ℚ
  last_reset_time : Option ℤ
  consecutive_losses : ℕ
  consecutive_wins : ℕ
  current_trade_percentage : ℚ

/-- TradingState.__init__. -/
def TradingState.init (cfg : Config) : TradingState :=
  { open_orders := []
    last_trade_time := fun _ => 0
    daily_loss := 0
    initial_daily_balance := 0
    last_reset_time := none
    consecutive_losses := 0
    consecutive_wins := 0
    current_trade_percentage := cfg.basePercent }

/-- TradingState.reset_daily. -/
def reset_daily (cfg : Config) (s : TradingState) (balance : ℚ) (now : ℤ) :
    TradingState :=
  { s with
    daily_loss := 0
    initial_daily_balance := balance
    last_reset_time := some now
    consecutive_losses := 0
    consecutive_wins := 0
    current_trade_percentage := cfg.basePercent }

/-- TradingState.add_order. -/
def add_order (s : TradingState) (o : Order) : TradingState :=
  { s with open_orders := s.open_orders ++ [o] }

/-- Python list.remove: delete the first occurrence, no-op when absent
(the ValueError is caught and only logged). -/
def removeFirst (l : List Order) (o : Order) : List Order :=
  match l with
  | [] => []
  | x :: xs => if x = o then xs else x :: removeFirst xs o

/-- TradingState.remove_order. -/
def remove_order (s : TradingState) (o : Order) : TradingState :=
  { s with open_orders := removeFirst s.open_orders o }

/-- TradingState.update_trade_time. -/
def update_trade_time (s : TradingState) (asset : String) (now : ℤ) :
    TradingState :=
  { s with last_trade_time := Function.update s.last_trade_time asset now }

/-- TradingState.update_loss. -/
def update_loss (s : TradingState) (amount : ℚ) : TradingState :=
  { s with
    daily_loss := s.daily_loss + amount
    consecutive_losses := s.consecutive_losses + 1
    consecutive_wins := 0 }

/-- TradingState.update_win. -/
def update_win (s : TradingState) (profit : ℚ) : TradingState :=
  { s with
    daily_loss := s.daily_loss - profit
    consecutive_wins := s.consecutive_wins + 1
    consecutive_losses := 0 }

/-- TradingState.adjust_trade_percentage.  Note the extra guards
`current_trade_percentage > TRADE_PERCENTAGE_MIN` and
`< TRADE_PERCENTAGE_MAX` on the streak branches; when a guard fails the
else branch resets to the clamped base percentage. -/
def adjust_trade_percentage (cfg : Config) (s : TradingState) : TradingState :=
  if s.consecutive_losses ≥ cfg.lossThreshold ∧
      s.current_trade_percentage > cfg.minPercent then
    { s with
      current_trade_percentage := max cfg.minPercent (s.current_trade_percentage * 0.8) }
  else if s.consecutive_wins ≥ cfg.winThreshold ∧
      s.current_trade_percentage < cfg.maxPercent then
    { s with
      current_trade_percentage := min cfg.maxPercent (s.current_trade_percentage * 1.2) }
  else
    { s with
      current_trade_percentage := max cfg.minPercent (min cfg.maxPercent cfg.basePercent) }

/-- TradingState.check_daily_loss_limit.  The balance argument is unused
in the source body as well. -/
def check_daily_loss_limit (cfg : Config) (s : TradingState) (balance : ℚ) :
    Bool :=
  if s.initial_daily_balance > 0 then
    if s.daily_loss / s.initial_daily_balance * 100 ≥ cfg.dailyLossLimit then
      false
    else
      true
  else
    true

/-- One iteration of the open-order reconciliation loop body of
execute_trades: given the check_win result for an order, the updated
state and whether the order was appended to orders_to_remove. -/
def processOrder (s : TradingState) (o : Order) (r : CheckWinResult) :
    TradingState × Bool :=
  match r with
  | .dict gameState win _profitAmount =>
    if gameState = 1 then
      match win with
      | .t => (update_win s (o.amount * (o.percentProfit / 100)), true)
      | .f => (update_loss s o.amount, true)
      | .n => (s, true)
      | .other => (s, true)
    else
      (s, false)
  | .noneVal => (s, false)
  | .falseVal => (s, false)
  | .badType => (s, false)
  | .exn => (s, true)

/-- One fold step accumulating the reconciliation state and the
orders_to_remove list. -/
def reconcileStep (cw : ℕ → CheckWinResult) (acc : TradingState × List Order)
    (o : Order) : TradingState × List Order :=
  let pr := processOrder acc.1 o (cw o.id)
  (pr.1, if pr.2 then acc.2 ++ [o] else acc.2)

/-- The reconciliation phase of execute_trades: walk the open orders,
update the risk state per outcome, then remove the settled ones. -/
def reconcile (s : TradingState) (cw : ℕ → CheckWinResult) : TradingState :=
  let res := s.open_orders.foldl (reconcileStep cw) (s, [])
  res.2.foldl remove_order res.1

/-- Round half to even at two decimals, as Python round(x, 2): the
integer nearest to 100 * q, ties to the even integer. -/
def rhe (q : ℚ) : ℤ :=
  if q - ⌊q⌋ < 1 / 2 then ⌊q⌋
  else if 1 / 2 < q - ⌊q⌋ then ⌊q⌋ + 1
  else if ⌊q⌋ % 2 = 0 then ⌊q⌋ else ⌊q⌋ + 1

/-- round(x, 2). -/
def roundTo2 (q : ℚ) : ℚ := (rhe (100 * q) : ℚ) / 100

/-- The position sizing computation of execute_trades: percentage of
balance, clamped to [1, 5000], rounded to cents. -/
def trade_amount (pct balance : ℚ) : ℚ :=
  roundTo2 (min (max 1 (pct / 100 * balance)) 5000)

/-- The signal decision of execute_trades: skip when any of price, RSI,
SMA, ATR is missing or non-numeric; call when RSI < buy threshold and
price > SMA; else put when RSI > sell threshold and ATR < max ATR; else
nothing.  true = call, false = put. -/
def evaluate (cfg : Config) (price rsi sma atr : Option ℚ) : Option Bool :=
  match rsi, sma, atr, price with
  | some r, some m, some a, some p =>
    if r < cfg.rsiBuy ∧ p > m then some true
    else if r > cfg.rsiSell ∧ a < cfg.atrMax then some false
    else none
  | _, _, _, _ => none

/-- A submission attempt: the point where the code calls client.buy. -/
structure Attempt where
  asset : String
  direction : Bool
  amount : ℚ
deriving DecidableEq

/-- The per-asset body of the scan loop of execute_trades, threading the
state, the running balance and the list of submission attempts made so
far.  Mirrors the source order of guards: open-order skip, cooldown
skip, indicator/price/signal skip, balance guard, sizing, minimum-amount
guard, then the client.buy call with its four outcome shapes. -/
def scanAsset (cfg : Config) (env : CycleEnv)
    (indicators : String → IndicatorSnapshot)
    (acc : TradingState × ℚ × List Attempt) (asset : String) :
    TradingState × ℚ × List Attempt :=
  let s := acc.1
  let balance := acc.2.1
  let attempts := acc.2.2
  if s.open_orders.any (fun o => o.asset = asset) then acc
  else if env.now - s.last_trade_time asset < cfg.cooldown then acc
  else
    let ind := indicators asset
    match evaluate cfg (env.price asset) ind.rsi ind.sma ind.atr with
    | none => acc
    | some d =>
      if balance ≤ 0 then acc
      else
        let amount := trade_amount s.current_trade_percentage balance
        if amount < 1 then acc
        else
          let attempts2 := attempts ++ [⟨asset, d, amount⟩]
          match env.buy asset with
          | .ok oid ots pp pl accountBalance =>
            let o : Order :=
              ⟨oid, asset, d, amount, ots, cfg.tradeDuration, pp, pl⟩
            let s2 := update_trade_time (add_order s o) asset env.now
            let balance2 :=
              match accountBalance with
              | some b => b
              | none => balance - amount
            (s2, balance2, attempts2)
          | .okNoId => (update_trade_time s asset env.now, balance, attempts2)
          | .rejected => (s, balance, attempts2)
          | .exn => (update_trade_time s asset env.now, balance, attempts2)

/-- Whether the daily reset fires: first run, or 86400 seconds elapsed
since the last reset. -/
def shouldReset (s : TradingState) (now : ℤ) : Bool :=
  match s.last_reset_time with
  | none => true
  | some t => decide (now - t ≥ 86400)

/-- The daily-reset check at the start of the cycle. -/
def dailyResetCheck (cfg : Config) (s : TradingState) (balance : ℚ)
    (now : ℤ) : TradingState :=
  if shouldReset s now then reset_daily cfg s balance now else s

/-- One full execute_trades cycle: early exits for disabled trading and
an empty asset list, balance fetch defaulting to 0 on failure, daily
reset check, open-order reconciliation, streak adjustment, daily-loss
circuit breaker, zero-balance guard, then the scan over assets.  Returns
the final state together with the submission attempts made. -/
def execute_trades (cfg : Config) (s : TradingState) (assets : List String)
    (indicators : String → IndicatorSnapshot) (env : CycleEnv) :
    TradingState × List Attempt :=
  if cfg.tradeEnabled = false then (s, [])
  else if assets = [] then (s, [])
  else
    let balance := (env.balance).getD 0
    let s3 := adjust_trade_percentage cfg
      (reconcile (dailyResetCheck cfg s balance env.now) env.checkWin)
    if check_daily_loss_limit cfg s3 balance = false then (s3, [])
    else if balance ≤ 0 then (s3, [])
    else
      let r := assets.foldl (scanAsset cfg env indicators) (s3, balance, [])
      (r.1, r.2.2)

/-- A risk state in which the loss streak has already driven the trade
percentage down to the configured minimum. -/
def sAtMin : TradingState :=
  { open_orders := []
    last_trade_time := fun _ => 0
    daily_loss := 0
    initial_daily_balance := 0
    last_reset_time := none
    consecutive_losses := 2
    consecutive_wins := 0
    current_trade_percentage := 2 }

/-- The settings.py defaults: TRADE_PERCENTAGE=5, min 2, max 5,
duration 120, RSI buy 35 / sell 65, ATR max 0.05, cooldown 300,
daily loss limit 10, both streak thresholds 2. -/
def cfg0 : Config :=
  { tradeEnabled := true
    basePercent := 5
    minPercent := 2
    maxPercent := 5
    tradeDuration := 120
    rsiBuy := 35
    rsiSell := 65
    atrMax := 0.05
    cooldown := 300
    dailyLossLimit := 10
    lossThreshold := 2
    winThreshold := 2 }

/-! ## Helper lemmas about rounding -/

theorem rhe_le (q : ℚ) : (rhe q : ℚ) ≤ q + 1 / 2 := by
  have h1 : (⌊q⌋ : ℚ) ≤ q := Int.floor_le q
  have h2 : q < ⌊q⌋ + 1 := Int.lt_floor_add_one q
  unfold rhe
  split_ifs with ha hb hc <;> push_cast <;> linarith

theorem le_rhe (q : ℚ) : q - 1 / 2 ≤ (rhe q : ℚ) := by
  have h1 : (⌊q⌋ : ℚ) ≤ q := Int.floor_le q
  have h2 : q < ⌊q⌋ + 1 := Int.lt_floor_add_one q
  unfold rhe
  split_ifs with ha hb hc <;> push_cast <;> linarith

theorem rhe_intCast (n : ℤ) : rhe (n : ℚ) = n := by
  unfold rhe
  rw [Int.floor_intCast]
  norm_num

theorem rhe_mono {x y : ℚ} (h : x ≤ y) : rhe x ≤ rhe y := by
  by_contra hc
  push_neg at hc
  have hxy : (rhe y : ℚ) + 1 ≤ (rhe x : ℚ) := by
    exact_mod_cast Int.add_one_le_iff.mpr hc
  have b2 := rhe_le x
  have b3 := le_rhe y
  have hx2 : (rhe x : ℚ) = x + 1 / 2 := by linarith
  have hy2 : (rhe y : ℚ) = y - 1 / 2 := by linarith
  have hxy2 : x = y := by linarith
  rw [hxy2] at hx2
  linarith

theorem roundTo2_mono {x y : ℚ} (h : x ≤ y) : roundTo2 x ≤ roundTo2 y := by
  unfold roundTo2
  have h1 : rhe (100 * x) ≤ rhe (100 * y) := rhe_mono (by linarith)
  have h2 : ((rhe (100 * x) : ℚ)) ≤ (rhe (100 * y) : ℚ) := by exact_mod_cast h1
  linarith

theorem roundTo2_intCast (n : ℤ) : roundTo2 (n : ℚ) = n := by
  unfold roundTo2
  have h : (100 : ℚ) * n = ((100 * n : ℤ) : ℚ) := by push_cast; ring
  rw [h, rhe_intCast]
  push_cast
  field_simp

theorem trade_amount_bounds (pct balance : ℚ) :
    1 ≤ trade_amount pct balance ∧ trade_amount pct balance ≤ 5000 := by
  unfold trade_amount
  have h1 : (1 : ℚ) ≤ min (max 1 (pct / 100 * balance)) 5000 :=
    le_min (le_max_left _ _) (by norm_num)
  have h2 : min (max 1 (pct / 100 * balance)) 5000 ≤ 5000 := min_le_right _ _
  have e1 : roundTo2 (1 : ℚ) = 1 := by simpa using roundTo2_intCast 1
  have e2 : roundTo2 (5000 : ℚ) = 5000 := by simpa using roundTo2_intCast 5000
  constructor
  · have := roundTo2_mono h1
    rw [e1] at this
    exact this
  · have := roundTo2_mono h2
    rw [e2] at this
    exact this

theorem trade_amount_mono {b : ℚ} (hb : 0 ≤ b) {p q : ℚ} (h : p ≤ q) :
    trade_amount p b ≤ trade_amount q b := by
  unfold trade_amount
  apply roundTo2_mono
  have hm : p / 100 * b ≤ q / 100 * b := by
    apply mul_le_mul_of_nonneg_right _ hb
    linarith
  exact min_le_min (max_le_max le_rfl hm) le_rfl

/-! ## Helper lemmas about reconciliation -/

theorem processOrder_fields (s : TradingState) (o : Order) (r : CheckWinResult) :
    (processOrder s o r).1.open_orders = s.open_orders ∧
    (processOrder s o r).1.initial_daily_balance = s.initial_daily_balance ∧
    (processOrder s o r).1.last_trade_time = s.last_trade_time ∧
    (processOrder s o r).1.last_reset_time = s.last_reset_time ∧
    (processOrder s o r).1.current_trade_percentage = s.current_trade_percentage := by
  cases r with
  | dict gs w p =>
    simp only [processOrder]
    split_ifs with hg
    · cases w <;> simp [update_win, update_loss]
    · simp
  | noneVal => exact ⟨rfl, rfl, rfl, rfl, rfl⟩
  | falseVal => exact ⟨rfl, rfl, rfl, rfl, rfl⟩
  | badType => exact ⟨rfl, rfl, rfl, rfl, rfl⟩
  | exn => exact ⟨rfl, rfl, rfl, rfl, rfl⟩

theorem reconcileFold_fields (cw : ℕ → CheckWinResult) (l : List Order)
    (p : TradingState × List Order) :
    ((l.foldl (reconcileStep cw) p).1).open_orders = p.1.open_orders ∧
    ((l.foldl (reconcileStep cw) p).1).initial_daily_balance = p.1.initial_daily_balance := by
  induction l generalizing p with
  | nil => exact ⟨rfl, rfl⟩
  | cons o t ih =>
    rw [List.foldl_cons]
    have hstep := processOrder_fields p.1 o (cw o.id)
    have h := ih (reconcileStep cw p o)
    refine ⟨h.1.trans ?_, h.2.trans ?_⟩
    · exact hstep.1
    · exact hstep.2.1

theorem removeFirst_sublist (l : List Order) (o : Order) :
    List.Sublist (removeFirst l o) l := by
  induction l with
  | nil => simp [removeFirst]
  | cons x xs ih =>
    simp only [removeFirst]
    split_ifs with h
    · exact List.sublist_cons_self x xs
    · exact List.Sublist.cons₂ x ih

theorem removeFold_fields (l : List Order) (s : TradingState) :
    List.Sublist ((l.foldl remove_order s).open_orders) s.open_orders ∧
    (l.foldl remove_order s).daily_loss = s.daily_loss ∧
    (l.foldl remove_order s).initial_daily_balance = s.initial_daily_balance ∧
    (l.foldl remove_order s).consecutive_losses = s.consecutive_losses ∧
    (l.foldl remove_order s).consecutive_wins = s.consecutive_wins ∧
    (l.foldl remove_order s).current_trade_percentage = s.current_trade_percentage := by
  induction l generalizing s with
  | nil => exact ⟨List.Sublist.refl _, rfl, rfl, rfl, rfl, rfl⟩
  | cons o t ih =>
    rw [List.foldl_cons]
    have h := ih (remove_order s o)
    exact ⟨h.1.trans (removeFirst_sublist s.open_orders o), h.2.1, h.2.2.1,
      h.2.2.2.1, h.2.2.2.2.1, h.2.2.2.2.2⟩

theorem reconcile_initial (s : TradingState) (cw : ℕ → CheckWinResult) :
    (reconcile s cw).initial_daily_balance = s.initial_daily_balance := by
  simp only [reconcile]
  have h1 := removeFold_fields (s.open_orders.foldl (reconcileStep cw) (s, [])).2
    (s.open_orders.foldl (reconcileStep cw) (s, [])).1
  have h2 := reconcileFold_fields cw s.open_orders (s, [])
  exact h1.2.2.1.trans h2.2

theorem reconcile_nodup (s : TradingState) (cw : ℕ → CheckWinResult)
    (h : (s.open_orders.map Order.asset).Nodup) :
    ((reconcile s cw).open_orders.map Order.asset).Nodup := by
  simp only [reconcile]
  have h1 := (removeFold_fields (s.open_orders.foldl (reconcileStep cw) (s, [])).2
    (s.open_orders.foldl (reconcileStep cw) (s, [])).1).1
  have h2 := (reconcileFold_fields cw s.open_orders (s, [])).1
  rw [h2] at h1
  exact h.sublist (h1.map Order.asset)

theorem adjust_fields (cfg : Config) (s : TradingState) :
    (adjust_trade_percentage cfg s).open_orders = s.open_orders ∧
    (adjust_trade_percentage cfg s).daily_loss = s.daily_loss ∧
    (adjust_trade_percentage cfg s).initial_daily_balance = s.initial_daily_balance ∧
    (adjust_trade_percentage cfg s).consecutive_losses = s.consecutive_losses ∧
    (adjust_trade_percentage cfg s).consecutive_wins = s.consecutive_wins := by
  unfold adjust_trade_percentage
  split_ifs <;> exact ⟨rfl, rfl, rfl, rfl, rfl⟩

theorem dailyResetCheck_orders (cfg : Config) (s : TradingState) (b : ℚ) (now : ℤ) :
    (dailyResetCheck cfg s b now).open_orders = s.open_orders := by
  unfold dailyResetCheck
  split_ifs <;> rfl

theorem scanAsset_master (cfg : Config) (env : CycleEnv)
    (ind : String → IndicatorSnapshot) (acc : TradingState × ℚ × List Attempt)
    (a : String) :
    ((scanAsset cfg env ind acc a).1.daily_loss = acc.1.daily_loss ∧
     (scanAsset cfg env ind acc a).1.consecutive_wins = acc.1.consecutive_wins ∧
     (scanAsset cfg env ind acc a).1.consecutive_losses = acc.1.consecutive_losses ∧
     (scanAsset cfg env ind acc a).1.initial_daily_balance = acc.1.initial_daily_balance) ∧
    (env.buy a = .rejected → (scanAsset cfg env ind acc a).1 = acc.1) ∧
    ((scanAsset cfg env ind acc a).1.open_orders = acc.1.open_orders ∨
      (acc.1.open_orders.any (fun o => o.asset = a) = false ∧
       ∃ o : Order, o.asset = a ∧
         (scanAsset cfg env ind acc a).1.open_orders = acc.1.open_orders ++ [o])) := by
  by_cases h1 : acc.1.open_orders.any (fun o => o.asset = a) = true
  · simp [scanAsset, h1]
  · rw [Bool.not_eq_true] at h1
    by_cases h2 : env.now - acc.1.last_trade_time a < cfg.cooldown
    · simp [scanAsset, h1, h2]
    · cases hev : evaluate cfg (env.price a) (ind a).rsi (ind a).sma (ind a).atr with
      | none => simp [scanAsset, h1, h2, hev]
      | some d =>
        by_cases h3 : acc.2.1 ≤ 0
        · simp [scanAsset, h1, h2, hev, h3]
        · by_cases h4 : trade_amount acc.1.current_trade_percentage acc.2.1 < 1
          · simp [scanAsset, h1, h2, hev, h3, h4]
          · cases hbuy : env.buy a with
            | ok oid ots pp pl ab =>
              refine ⟨?_, ?_, ?_⟩
              · simp [scanAsset, h1, h2, hev, h3, h4, hbuy, update_trade_time, add_order]
              · intro hr; exact absurd hr (by simp [hbuy])
              · right
                refine ⟨h1, ⟨oid, a, d, trade_amount acc.1.current_trade_percentage acc.2.1,
                  ots, cfg.tradeDuration, pp, pl⟩, rfl, ?_⟩
                simp [scanAsset, h1, h2, hev, h3, h4, hbuy, update_trade_time, add_order]
            | okNoId =>
              refine ⟨?_, ?_, ?_⟩
              · simp [scanAsset, h1, h2, hev, h3, h4, hbuy, update_trade_time]
              · intro hr; exact absurd hr (by simp [hbuy])
              · left; simp [scanAsset, h1, h2, hev, h3, h4, hbuy, update_trade_time]
            | rejected =>
              have he : (scanAsset cfg env ind acc a).1 = acc.1 := by
                simp [scanAsset, h1, h2, hev, h3, h4, hbuy]
              exact ⟨by rw [he]; exact ⟨rfl, rfl, rfl, rfl⟩, fun _ => he, Or.inl (by rw [he])⟩
            | exn =>
              refine ⟨?_, ?_, ?_⟩
              · simp [scanAsset, h1, h2, hev, h3, h4, hbuy, update_trade_time]
              · intro hr; exact absurd hr (by simp [hbuy])
              · left; simp [scanAsset, h1, h2, hev, h3, h4, hbuy, update_trade_time]

theorem scanAsset_nodup (cfg : Config) (env : CycleEnv)
    (ind : String → IndicatorSnapshot) (acc : TradingState × ℚ × List Attempt)
    (a : String) (h : (acc.1.open_orders.map Order.asset).Nodup) :
    ((scanAsset cfg env ind acc a).1.open_orders.map Order.asset).Nodup := by
  rcases (scanAsset_master cfg env ind acc a).2.2 with he | ⟨hany, o, ho, he⟩
  · rw [he]; exact h
  · rw [he, List.map_append]
    have hnotin : o.asset ∉ acc.1.open_orders.map Order.asset := by
      simp only [List.any_eq_false, decide_eq_true_eq] at hany
      simp only [List.mem_map]
      rintro ⟨x, hx, hxa⟩
      exact hany x hx (hxa.trans ho)
    simp [List.Nodup, List.pairwise_append]
    refine ⟨h, fun x hx => ?_⟩
    intro hxo
    exact hnotin (hxo ▸ List.mem_map_of_mem Order.asset hx)

theorem scanFold_nodup (cfg : Config) (env : CycleEnv)
    (ind : String → IndicatorSnapshot) (assets : List String)
    (acc : TradingState × ℚ × List Attempt)
    (h : (acc.1.open_orders.map Order.asset).Nodup) :
    (((assets.foldl (scanAsset cfg env ind) acc).1.open_orders.map Order.asset)).Nodup := by
  induction assets generalizing acc with
  | nil => exact h
  | cons a t ih => exact ih _ (scanAsset_nodup cfg env ind acc a h)

/-! ## Concrete states and environments used in witnesses and
counterexamples -/

/-- A risk state with a live two-loss streak at the base percentage. -/
def sLoss : TradingState := { TradingState.init cfg0 with consecutive_losses := 2 }

/-- An order as tracked after a successful submission. -/
def oA : Order := ⟨7, "EURUSD", true, 50, none, 120, 80, 100⟩

/-- A fresh state holding exactly one open order. -/
def sOne : TradingState := { TradingState.init cfg0 with open_orders := [oA] }

/-- Outcome oracle reporting a finished WIN for every order. -/
def cwWin : ℕ → CheckWinResult := fun _ => .dict 1 .t 40

/-- Outcome oracle answering None (still processing) for every order. -/
def cwNone : ℕ → CheckWinResult := fun _ => .noneVal

/-- Indicator snapshot giving RSI 30, SMA 1.05, ATR 0.01 for every
asset: a valid CALL signal against a price of 1.10. -/
def indSig : String → IndicatorSnapshot := fun _ => ⟨some 30, some (21 / 20), some (1 / 100)⟩

/-- Environment at time 1000 with balance 1000, price 1.10 everywhere,
no finished orders, and a broker that accepts every order. -/
def envSig : CycleEnv :=
  ⟨1000, some 1000, fun _ => .noneVal, fun _ => some (11 / 10), fun _ => .ok 7 none 80 100 none⟩

/-- Same environment but the broker rejects every submission. -/
def envRej : CycleEnv := { envSig with buy := fun _ => .rejected }

/-- Same environment but every submission raises an exception. -/
def envExn : CycleEnv := { envSig with buy := fun _ => .exn }

/-- Same environment but the balance query fails. -/
def envNoBal : CycleEnv := { envSig with balance := none }

/-- Risk state mid-window with daily loss 12 against an initial daily
balance of 100, base percentage in force. -/
def sC2 : TradingState := ⟨[], fun _ => 0, 12, 100, some 1000, 0, 0, 5⟩

/-- Environment for the circuit-breaker scenario: accepting broker and
a valid CALL signal are available, balance healthy. -/
def envC2 : CycleEnv :=
  ⟨1000, some 988, fun _ => .noneVal, fun _ => some (11 / 10), fun _ => .ok 7 none 80 100 none⟩

/-- Indicators for the circuit-breaker scenario (same CALL signal). -/
def indC2 : String → IndicatorSnapshot := fun _ => ⟨some 30, some (21 / 20), some (1 / 100)⟩

/-! ## Claim theorems -/

/-- Claim C1, counterexample: with the default configuration and a
persisting loss streak at the configured minimum percentage
(consecutiveLosses = 2 ≥ lossThreshold, currentRiskPercent = 2 =
minPercent), the code sets currentRiskPercent to 5 (the base), not to
max(minPercent, currentRiskPercent * 0.8) = 2 as the claim's rule
requires; the adjustment thus raises the percentage back to base under
a persisting loss streak. -/
theorem C1_counterexample :
    (adjust_trade_percentage cfg0 sAtMin).current_trade_percentage = 5 ∧
    ¬((adjust_trade_percentage cfg0 sAtMin).current_trade_percentage =
        max cfg0.minPercent (sAtMin.current_trade_percentage * 0.8)) := by
  norm_num [adjust_trade_percentage, sAtMin, cfg0, min_def, max_def]

/-- Claim C1, amended: the loss branch max(minPercent, pct * 0.8)
applies only when consecutiveLosses >= lossThreshold AND
currentRiskPercent > minPercent; failing that, the win branch
min(maxPercent, pct * 1.2) applies only when consecutiveWins >=
winThreshold AND currentRiskPercent < maxPercent; otherwise the
adjustment sets clamp(basePercent, minPercent, maxPercent).  With
basePercent=5, minPercent=2, maxPercent=5, lossThreshold=2, two
consecutive LOSS outcomes give 4.0, but under a persisting loss streak
the percentage walks 5, 4, 3.2, 2.56, 2.048, 2 and the sixth
adjustment resets it to the base 5. -/
theorem C1_amended :
    (∀ (cfg : Config) (s : TradingState),
       cfg.lossThreshold ≤ s.consecutive_losses →
       cfg.minPercent < s.current_trade_percentage →
       (adjust_trade_percentage cfg s).current_trade_percentage =
         max cfg.minPercent (s.current_trade_percentage * 0.8)) ∧
    (∀ (cfg : Config) (s : TradingState),
       ¬(cfg.lossThreshold ≤ s.consecutive_losses ∧
          cfg.minPercent < s.current_trade_percentage) →
       cfg.winThreshold ≤ s.consecutive_wins →
       s.current_trade_percentage < cfg.maxPercent →
       (adjust_trade_percentage cfg s).current_trade_percentage =
         min cfg.maxPercent (s.current_trade_percentage * 1.2)) ∧
    (∀ (cfg : Config) (s : TradingState),
       ¬(cfg.lossThreshold ≤ s.consecutive_losses ∧
          cfg.minPercent < s.current_trade_percentage) →
       ¬(cfg.winThreshold ≤ s.consecutive_wins ∧
          s.current_trade_percentage < cfg.maxPercent) →
       (adjust_trade_percentage cfg s).current_trade_percentage =
         max cfg.minPercent (min cfg.maxPercent cfg.basePercent)) ∧
    (adjust_trade_percentage cfg0
       (update_loss (update_loss (TradingState.init cfg0) 50) 40)).current_trade_percentage = 4 ∧
    ((adjust_trade_percentage cfg0)^[5] sLoss).current_trade_percentage = 2 ∧
    ((adjust_trade_percentage cfg0)^[6] sLoss).current_trade_percentage = 5 := by
  refine ⟨?_, ?_, ?_, ?_, ?_, ?_⟩
  · intro cfg s h1 h2
    simp only [adjust_trade_percentage]
    rw [if_pos ⟨h1, h2⟩]
  · intro cfg s h1 h2 h3
    simp only [adjust_trade_percentage]
    rw [if_neg h1, if_pos ⟨h2, h3⟩]
  · intro cfg s h1 h2
    simp only [adjust_trade_percentage]
    rw [if_neg h1, if_neg h2]
  · norm_num [adjust_trade_percentage, update_loss, TradingState.init, cfg0, min_def, max_def]
  · simp only [Function.iterate_succ, Function.iterate_zero, Function.comp_apply, id_eq]
    norm_num [adjust_trade_percentage, min_def, max_def, sLoss, TradingState.init, cfg0]
  · simp only [Function.iterate_succ, Function.iterate_zero, Function.comp_apply, id_eq]
    norm_num [adjust_trade_percentage, min_def, max_def, sLoss, TradingState.init, cfg0]

/-- A risk state with a live two-win streak below the maximum
percentage. -/
def sWin : TradingState :=
  { TradingState.init cfg0 with
    consecutive_wins := 2
    current_trade_percentage := 4 }

/-- Witness for C1_amended: all three conditional branches instantiated
at concrete states — two losses at base percentage (loss branch), two
wins at percentage 4 (win branch), and both the fresh no-streak state
and the loss-streak-at-minimum state (clamp branch). -/
theorem C1_witness :
    (adjust_trade_percentage cfg0 sLoss).current_trade_percentage =
      max cfg0.minPercent (sLoss.current_trade_percentage * 0.8) ∧
    (adjust_trade_percentage cfg0 sWin).current_trade_percentage =
      min cfg0.maxPercent (sWin.current_trade_percentage * 1.2) ∧
    (adjust_trade_percentage cfg0 (TradingState.init cfg0)).current_trade_percentage =
      max cfg0.minPercent (min cfg0.maxPercent cfg0.basePercent) ∧
    (adjust_trade_percentage cfg0 sAtMin).current_trade_percentage =
      max cfg0.minPercent (min cfg0.maxPercent cfg0.basePercent) :=
  ⟨C1_amended.1 cfg0 sLoss (by norm_num [sLoss, TradingState.init, cfg0])
      (by norm_num [sLoss, TradingState.init, cfg0]),
    C1_amended.2.1 cfg0 sWin (by norm_num [sWin, TradingState.init, cfg0])
      (by norm_num [sWin, TradingState.init, cfg0])
      (by norm_num [sWin, TradingState.init, cfg0]),
    C1_amended.2.2.1 cfg0 (TradingState.init cfg0)
      (by norm_num [TradingState.init, cfg0]) (by norm_num [TradingState.init, cfg0]),
    C1_amended.2.2.1 cfg0 sAtMin
      (by norm_num [sAtMin, cfg0]) (by norm_num [sAtMin, cfg0])⟩

/-- Claim C6 (confirmed): the signal evaluation yields no signal when
any of price, RSI, SMA, ATR is missing or non-numeric; on numeric
inputs it yields CALL exactly when RSI < buyThreshold and price > SMA,
and PUT exactly when the CALL condition fails while RSI > sellThreshold
and ATR < atrMax (CALL takes priority by evaluation order); in
particular RSI=30, buyThreshold=35, price=1.10, SMA=1.05 yields CALL
for any ATR. -/
theorem C6_theorem :
    (∀ (cfg : Config) (price rsi sma atr : Option ℚ),
       rsi = none ∨ sma = none ∨ atr = none ∨ price = none →
       evaluate cfg price rsi sma atr = none) ∧
    (∀ (cfg : Config) (p r m a : ℚ),
       evaluate cfg (some p) (some r) (some m) (some a) = some true ↔
         r < cfg.rsiBuy ∧ m < p) ∧
    (∀ (cfg : Config) (p r m a : ℚ),
       evaluate cfg (some p) (some r) (some m) (some a) = some false ↔
         ¬(r < cfg.rsiBuy ∧ m < p) ∧ cfg.rsiSell < r ∧ a < cfg.atrMax) ∧
    (∀ a : ℚ, evaluate cfg0 (some (11 / 10)) (some 30) (some (21 / 20)) (some a) = some true) := by
  refine ⟨?_, ?_, ?_, ?_⟩
  · intro cfg price rsi sma atr h
    cases rsi with
    | none => simp [evaluate]
    | some r =>
      cases sma with
      | none => simp [evaluate]
      | some m =>
        cases atr with
        | none => simp [evaluate]
        | some a =>
          cases price with
          | none => simp [evaluate]
          | some p => rcases h with h | h | h | h <;> simp at h
  · intro cfg p r m a
    by_cases h1 : r < cfg.rsiBuy ∧ m < p
    · simp [evaluate, h1]
    · by_cases h2 : cfg.rsiSell < r ∧ a < cfg.atrMax
      · simp [evaluate, h1, h2]
      · simp [evaluate, h1, h2]
  · intro cfg p r m a
    by_cases h1 : r < cfg.rsiBuy ∧ m < p
    · simp [evaluate, h1]
    · by_cases h2 : cfg.rsiSell < r ∧ a < cfg.atrMax
      · simp [evaluate, h1, h2]
      · simp [evaluate, h1, h2]
  · intro a
    norm_num [evaluate, cfg0]

/-- Witness for C6_theorem: a missing RSI yields no signal, and the
concrete CALL scenario of the claim. -/
theorem C6_witness :
    evaluate cfg0 (some (11 / 10)) none (some (21 / 20)) (some (1 / 100)) = none ∧
    evaluate cfg0 (some (11 / 10)) (some 30) (some (21 / 20)) (some (1 / 100)) = some true :=
  ⟨C6_theorem.1 cfg0 (some (11 / 10)) none (some (21 / 20)) (some (1 / 100)) (Or.inl rfl),
    C6_theorem.2.2.2 (1 / 100)⟩

/-- Claim C7 (confirmed): for every balance b > 0, the sized amount is
the clamp of riskPercent/100 * b to [1, 5000] rounded to cents, lies in
[1, 5000] for every risk percentage, and is monotonically
non-decreasing in the risk percentage. -/
theorem C7_theorem (b : ℚ) (hb : 0 < b) :
    (∀ p : ℚ, trade_amount p b = roundTo2 (min (max 1 (p / 100 * b)) 5000) ∧
       1 ≤ trade_amount p b ∧ trade_amount p b ≤ 5000) ∧
    (∀ p q : ℚ, p ≤ q → trade_amount p b ≤ trade_amount q b) := by
  constructor
  · intro p
    exact ⟨rfl, (trade_amount_bounds p b).1, (trade_amount_bounds p b).2⟩
  · intro p q h
    exact trade_amount_mono hb.le h

/-- Witness for C7_theorem: balance 1000, risk percentages 2 and 5. -/
theorem C7_witness :
    (1 ≤ trade_amount 5 1000 ∧ trade_amount 5 1000 ≤ 5000) ∧
    trade_amount 2 1000 ≤ trade_amount 5 1000 :=
  ⟨((C7_theorem 1000 (by norm_num)).1 5).2,
    (C7_theorem 1000 (by norm_num)).2 2 5 (by norm_num)⟩

/-- Claim C8 (confirmed): the daily reset fires exactly when
lastResetAt is unset or 86400 seconds have elapsed; it zeroes the daily
loss and streaks, snapshots the balance, restores the base percentage
and stamps lastResetAt; and re-running the check less than 86400
seconds after a reset changes nothing. -/
theorem C8_theorem :
    (∀ (cfg : Config) (s : TradingState) (b : ℚ) (now : ℤ),
       s.last_reset_time = none →
       dailyResetCheck cfg s b now = reset_daily cfg s b now) ∧
    (∀ (cfg : Config) (s : TradingState) (b : ℚ) (now t : ℤ),
       s.last_reset_time = some t → 86400 ≤ now - t →
       dailyResetCheck cfg s b now = reset_daily cfg s b now) ∧
    (∀ (cfg : Config) (s : TradingState) (b : ℚ) (now t : ℤ),
       s.last_reset_time = some t → now - t < 86400 →
       dailyResetCheck cfg s b now = s) ∧
    (∀ (cfg : Config) (s : TradingState) (b : ℚ) (now : ℤ),
       reset_daily cfg s b now =
         { s with
           daily_loss := 0
           initial_daily_balance := b
           last_reset_time := some now
           consecutive_losses := 0
           consecutive_wins := 0
           current_trade_percentage := cfg.basePercent }) ∧
    (∀ (cfg : Config) (s : TradingState) (b : ℚ) (now : ℤ) (b2 : ℚ) (now2 : ℤ),
       now2 - now < 86400 →
       dailyResetCheck cfg (reset_daily cfg s b now) b2 now2 =
         reset_daily cfg s b now) := by
  refine ⟨?_, ?_, ?_, ?_, ?_⟩
  · intro cfg s b now h
    simp [dailyResetCheck, shouldReset, h]
  · intro cfg s b now t h h2
    simp [dailyResetCheck, shouldReset, h, h2]
  · intro cfg s b now t h h2
    simp [dailyResetCheck, shouldReset, h, not_le.mpr h2]
  · intro cfg s b now
    rfl
  · intro cfg s b now b2 now2 h
    simp [dailyResetCheck, shouldReset, reset_daily, not_le.mpr h]

/-- Witness for C8_theorem: a first run fires the reset, and re-running
one second later leaves the state untouched. -/
theorem C8_witness :
    dailyResetCheck cfg0 (TradingState.init cfg0) 100 0 =
      reset_daily cfg0 (TradingState.init cfg0) 100 0 ∧
    dailyResetCheck cfg0 (reset_daily cfg0 (TradingState.init cfg0) 100 0) 50 1 =
      reset_daily cfg0 (TradingState.init cfg0) 100 0 :=
  ⟨C8_theorem.1 cfg0 (TradingState.init cfg0) 100 0 rfl,
    C8_theorem.2.2.2.2 cfg0 (TradingState.init cfg0) 100 0 50 1 (by norm_num)⟩

/-- Claim C3 (confirmed): reconciling a single open order whose outcome
query reports a finished game updates the risk state per outcome — WIN
subtracts amount * percentProfit/100 from the daily loss, increments
the win streak and zeroes the loss streak; LOSS adds the amount,
increments the loss streak and zeroes the win streak; DRAW changes no
P/L or streak field — and in each case removes the order from the open
set; hence consecutiveLosses = 0 after a WIN and consecutiveWins = 0
after a LOSS. -/
theorem C3_theorem (s : TradingState) (o : Order) (cw : ℕ → CheckWinResult) (pa : ℚ)
    (ho : s.open_orders = [o]) :
    (cw o.id = .dict 1 .t pa →
       reconcile s cw =
         { s with
           open_orders := []
           daily_loss := s.daily_loss - o.amount * (o.percentProfit / 100)
           consecutive_wins := s.consecutive_wins + 1
           consecutive_losses := 0 } ∧
       (reconcile s cw).consecutive_losses = 0) ∧
    (cw o.id = .dict 1 .f pa →
       reconcile s cw =
         { s with
           open_orders := []
           daily_loss := s.daily_loss + o.amount
           consecutive_losses := s.consecutive_losses + 1
           consecutive_wins := 0 } ∧
       (reconcile s cw).consecutive_wins = 0) ∧
    (cw o.id = .dict 1 .n 0 →
       reconcile s cw = { s with open_orders := [] }) := by
  refine ⟨?_, ?_, ?_⟩
  · intro hcw
    have heq : reconcile s cw =
        { s with
          open_orders := []
          daily_loss := s.daily_loss - o.amount * (o.percentProfit / 100)
          consecutive_wins := s.consecutive_wins + 1
          consecutive_losses := 0 } := by
      simp [reconcile, ho, reconcileStep, processOrder, hcw, update_win,
        remove_order, removeFirst]
    exact ⟨heq, by rw [heq]⟩
  · intro hcw
    have heq : reconcile s cw =
        { s with
          open_orders := []
          daily_loss := s.daily_loss + o.amount
          consecutive_losses := s.consecutive_losses + 1
          consecutive_wins := 0 } := by
      simp [reconcile, ho, reconcileStep, processOrder, hcw, update_loss,
        remove_order, removeFirst]
    exact ⟨heq, by rw [heq]⟩
  · intro hcw
    simp [reconcile, ho, reconcileStep, processOrder, hcw, remove_order, removeFirst]

/-- Witness for C3_theorem: a concrete WIN reconciliation of the single
tracked order (amount 50, percentProfit 80). -/
theorem C3_witness :
    reconcile sOne cwWin =
      { sOne with
        open_orders := []
        daily_loss := sOne.daily_loss - oA.amount * (oA.percentProfit / 100)
        consecutive_wins := sOne.consecutive_wins + 1
        consecutive_losses := 0 } ∧
    (reconcile sOne cwWin).consecutive_losses = 0 :=
  (C3_theorem sOne oA cwWin 40 rfl).1 rfl

/-- Claim C5, counterexample: an outcome query that returns the
malformed response None leaves the order in the open set unchanged (the
code keeps it for the next cycle), contradicting the claim that a
malformed response removes the order in the same reconciliation
pass. -/
theorem C5_counterexample :
    reconcile sOne cwNone = sOne ∧ sOne.open_orders = [oA] :=
  ⟨rfl, rfl⟩

/-- Claim C5, amended: an outcome-query exception removes the order in
the same pass without changing any P/L or streak field (so a query
exception is never retried); a malformed response — None, False, an
unexpected type, or a dict whose game is not finished — leaves the
order in the open set with the state otherwise unchanged, retried next
cycle; a finished game with an unrecognized win field is removed
without any state change. -/
theorem C5_amended (s : TradingState) (o : Order) (cw : ℕ → CheckWinResult)
    (ho : s.open_orders = [o]) :
    (cw o.id = .exn → reconcile s cw = { s with open_orders := [] }) ∧
    (cw o.id = .noneVal → reconcile s cw = s) ∧
    (cw o.id = .falseVal → reconcile s cw = s) ∧
    (cw o.id = .badType → reconcile s cw = s) ∧
    (∀ (gs : ℤ) (w : WinRaw) (pa : ℚ),
       cw o.id = .dict gs w pa → gs ≠ 1 → reconcile s cw = s) ∧
    (∀ pa : ℚ,
       cw o.id = .dict 1 .other pa → reconcile s cw = { s with open_orders := [] }) := by
  refine ⟨?_, ?_, ?_, ?_, ?_, ?_⟩
  · intro hcw
    simp [reconcile, ho, reconcileStep, processOrder, hcw, remove_order, removeFirst]
  · intro hcw
    simp [reconcile, ho, reconcileStep, processOrder, hcw]
  · intro hcw
    simp [reconcile, ho, reconcileStep, processOrder, hcw]
  · intro hcw
    simp [reconcile, ho, reconcileStep, processOrder, hcw]
  · intro gs w pa hcw hgs
    simp [reconcile, ho, reconcileStep, processOrder, hcw, hgs]
  · intro pa hcw
    simp [reconcile, ho, reconcileStep, processOrder, hcw, remove_order, removeFirst]

/-- Witness for C5_amended: a query exception on the single tracked
order removes it without touching any other field. -/
theorem C5_witness :
    reconcile sOne (fun _ => CheckWinResult.exn) = { sOne with open_orders := [] } :=
  (C5_amended sOne oA (fun _ => CheckWinResult.exn) rfl).1 rfl

/-- Claim C4, counterexample: with a broker that rejects the order
(success flag false, no exception), the scan makes a submission attempt
for the instrument yet leaves lastTradeAt unchanged at 0 instead of
setting it to now = 1000 — a clean rejection does not consume the
cooldown. -/
theorem C4_counterexample :
    (scanAsset cfg0 envRej indSig (TradingState.init cfg0, 1000, []) "EURUSD").2.2 =
      [⟨"EURUSD", true, 50⟩] ∧
    (scanAsset cfg0 envRej indSig (TradingState.init cfg0, 1000, []) "EURUSD").1.last_trade_time
      "EURUSD" = 0 ∧
    envRej.now = 1000 := by
  refine ⟨?_, ?_, rfl⟩ <;>
  · norm_num [scanAsset, evaluate, trade_amount, roundTo2, rhe, TradingState.init,
      cfg0, envRej, envSig, indSig, min_def, max_def]

/-- Claim C4, amended: the scan never mutates dailyLoss or the streak
counters on any submission path; a rejected submission (success flag
false, no exception) leaves the whole risk state — including
lastTradeAt — unchanged; whenever the scan reaches the submission call
(no open order, cooldown elapsed, a signal, positive balance, amount at
least 1), an accepted submission with an order id, an accepted
submission without an order id, and a submission that raises an
exception all set lastTradeAt[instrument] to now. -/
theorem C4_amended :
    (∀ (cfg : Config) (env : CycleEnv) (ind : String → IndicatorSnapshot)
       (acc : TradingState × ℚ × List Attempt) (a : String),
       (scanAsset cfg env ind acc a).1.daily_loss = acc.1.daily_loss ∧
       (scanAsset cfg env ind acc a).1.consecutive_wins = acc.1.consecutive_wins ∧
       (scanAsset cfg env ind acc a).1.consecutive_losses = acc.1.consecutive_losses) ∧
    (∀ (cfg : Config) (env : CycleEnv) (ind : String → IndicatorSnapshot)
       (acc : TradingState × ℚ × List Attempt) (a : String),
       env.buy a = .rejected → (scanAsset cfg env ind acc a).1 = acc.1) ∧
    (∀ (cfg : Config) (env : CycleEnv) (ind : String → IndicatorSnapshot)
       (acc : TradingState × ℚ × List Attempt) (a : String),
       acc.1.open_orders.any (fun o => o.asset = a) = false →
       ¬(env.now - acc.1.last_trade_time a < cfg.cooldown) →
       (∃ d : Bool,
         evaluate cfg (env.price a) ((ind a).rsi) ((ind a).sma) ((ind a).atr) = some d) →
       ¬(acc.2.1 ≤ 0) →
       ¬(trade_amount acc.1.current_trade_percentage acc.2.1 < 1) →
       ((∃ oid ots pp pl ab, env.buy a = .ok oid ots pp pl ab) ∨
        env.buy a = .okNoId ∨ env.buy a = .exn) →
       (scanAsset cfg env ind acc a).1.last_trade_time =
         Function.update acc.1.last_trade_time a env.now) := by
  refine ⟨?_, ?_, ?_⟩
  · intro cfg env ind acc a
    have h := (scanAsset_master cfg env ind acc a).1
    exact ⟨h.1, h.2.1, h.2.2.1⟩
  · intro cfg env ind acc a hb
    exact (scanAsset_master cfg env ind acc a).2.1 hb
  · intro cfg env ind acc a h1 h2 hev h3 h4 hb
    obtain ⟨d, hev⟩ := hev
    rcases hb with ⟨oid, ots, pp, pl, ab, hb⟩ | hb | hb <;>
      simp [scanAsset, h1, h2, hev, h3, h4, hb, update_trade_time, add_order]

/-- Same environment but the broker accepts without returning an order
id. -/
def envNoId : CycleEnv := { envSig with buy := fun _ => .okNoId }

/-- Witness for C4_amended: the rejected-submission branch leaves the
state untouched, while the accepted-with-id, accepted-without-id and
exception branches all stamp the cooldown, each instantiated in its
concrete environment. -/
theorem C4_witness :
    (scanAsset cfg0 envRej indSig (TradingState.init cfg0, 1000, []) "EURUSD").1 =
      (TradingState.init cfg0, (1000 : ℚ), ([] : List Attempt)).1 ∧
    (scanAsset cfg0 envSig indSig (TradingState.init cfg0, 1000, []) "EURUSD").1.last_trade_time =
      Function.update (TradingState.init cfg0).last_trade_time "EURUSD" envSig.now ∧
    (scanAsset cfg0 envNoId indSig (TradingState.init cfg0, 1000, []) "EURUSD").1.last_trade_time =
      Function.update (TradingState.init cfg0).last_trade_time "EURUSD" envNoId.now ∧
    (scanAsset cfg0 envExn indSig (TradingState.init cfg0, 1000, []) "EURUSD").1.last_trade_time =
      Function.update (TradingState.init cfg0).last_trade_time "EURUSD" envExn.now :=
  ⟨C4_amended.2.1 cfg0 envRej indSig (TradingState.init cfg0, 1000, []) "EURUSD" rfl,
    C4_amended.2.2 cfg0 envSig indSig (TradingState.init cfg0, 1000, []) "EURUSD" rfl
      (by norm_num [TradingState.init, envSig, cfg0])
      ⟨true, by norm_num [evaluate, envSig, indSig, cfg0]⟩
      (by norm_num)
      (by norm_num [TradingState.init, cfg0, trade_amount, roundTo2, rhe, min_def, max_def])
      (Or.inl ⟨7, none, 80, 100, none, rfl⟩),
    C4_amended.2.2 cfg0 envNoId indSig (TradingState.init cfg0, 1000, []) "EURUSD" rfl
      (by norm_num [TradingState.init, envNoId, envSig, cfg0])
      ⟨true, by norm_num [evaluate, envNoId, envSig, indSig, cfg0]⟩
      (by norm_num)
      (by norm_num [TradingState.init, cfg0, trade_amount, roundTo2, rhe, min_def, max_def])
      (Or.inr (Or.inl rfl)),
    C4_amended.2.2 cfg0 envExn indSig (TradingState.init cfg0, 1000, []) "EURUSD" rfl
      (by norm_num [TradingState.init, envExn, envSig, cfg0])
      ⟨true, by norm_num [evaluate, envExn, envSig, indSig, cfg0]⟩
      (by norm_num)
      (by norm_num [TradingState.init, cfg0, trade_amount, roundTo2, rhe, min_def, max_def])
      (Or.inr (Or.inr rfl))⟩

/-- Claim C2 (confirmed): whenever the risk state reached after the
daily-reset check, reconciliation and streak adjustment has
initialDailyBalance > 0 and dailyLoss / initialDailyBalance * 100 at or
above the daily loss limit, the cycle ends right after the
circuit-breaker check: the reconciled-and-adjusted state is returned
and zero submission attempts are made; the check is a function of the
current cycle's state only. -/
theorem C2_theorem (cfg : Config) (s s3 : TradingState) (assets : List String)
    (ind : String → IndicatorSnapshot) (env : CycleEnv)
    (hT : cfg.tradeEnabled = true) (hA : assets ≠ [])
    (hs3 : s3 = adjust_trade_percentage cfg
      (reconcile (dailyResetCheck cfg s ((env.balance).getD 0) env.now) env.checkWin))
    (hpos : 0 < s3.initial_daily_balance)
    (hbr : s3.daily_loss / s3.initial_daily_balance * 100 ≥ cfg.dailyLossLimit) :
    execute_trades cfg s assets ind env = (s3, []) := by
  have hchk : check_daily_loss_limit cfg s3 ((env.balance).getD 0) = false := by
    unfold check_daily_loss_limit
    rw [if_pos hpos, if_pos hbr]
  simp only [execute_trades, ← hs3]
  rw [if_neg (by simp [hT]), if_neg hA, if_pos hchk]

/-- Witness for C2_theorem: dailyLoss = 12 against
initialDailyBalance = 100 with a 10 percent limit submits zero orders
even though the environment carries a valid CALL signal and an
accepting broker. -/
theorem C2_witness :
    execute_trades cfg0 sC2 ["EURUSD"] indC2 envC2 = (sC2, []) :=
  C2_theorem cfg0 sC2 sC2 ["EURUSD"] indC2 envC2 rfl (by simp)
    (by symm
        norm_num [adjust_trade_percentage, reconcile, dailyResetCheck, shouldReset,
          sC2, envC2, cfg0, min_def, max_def])
    (by norm_num [sC2]) (by norm_num [sC2, cfg0])

/-- Claim C9 (confirmed): the scan skips an instrument that already has
an open order — the accumulator is returned untouched regardless of
cooldown or signal state — and consequently a full cycle preserves the
invariant that each instrument appears at most once among the open
orders. -/
theorem C9_theorem :
    (∀ (cfg : Config) (env : CycleEnv) (ind : String → IndicatorSnapshot)
       (acc : TradingState × ℚ × List Attempt) (a : String),
       acc.1.open_orders.any (fun o => o.asset = a) = true →
       scanAsset cfg env ind acc a = acc) ∧
    (∀ (cfg : Config) (s : TradingState) (assets : List String)
       (ind : String → IndicatorSnapshot) (env : CycleEnv),
       (s.open_orders.map Order.asset).Nodup →
       (((execute_trades cfg s assets ind env).1.open_orders.map Order.asset)).Nodup) := by
  constructor
  · intro cfg env ind acc a h
    simp [scanAsset, h]
  · intro cfg s assets ind env h
    have haux : ((adjust_trade_percentage cfg
        (reconcile (dailyResetCheck cfg s ((env.balance).getD 0) env.now)
          env.checkWin)).open_orders.map Order.asset).Nodup := by
      rw [(adjust_fields cfg _).1]
      apply reconcile_nodup
      rw [dailyResetCheck_orders]
      exact h
    simp only [execute_trades]
    split_ifs with h1 h2 h3 h4
    · exact h
    · exact h
    · exact haux
    · exact haux
    · exact scanFold_nodup cfg env ind assets _ haux

/-- Witness for C9_theorem: the skip branch and the cycle-level
invariant instantiated on a state already holding an open EURUSD
order. -/
theorem C9_witness :
    scanAsset cfg0 envSig indSig (sOne, 1000, []) "EURUSD" = (sOne, 1000, []) ∧
    (((execute_trades cfg0 sOne ["EURUSD"] indSig envSig).1.open_orders.map Order.asset)).Nodup :=
  ⟨C9_theorem.1 cfg0 envSig indSig (sOne, 1000, []) "EURUSD" (by simp [sOne, oA, TradingState.init]),
    C9_theorem.2 cfg0 sOne ["EURUSD"] indSig envSig (by simp [sOne, oA, TradingState.init])⟩

/-- Claim C10 (confirmed): when the balance query fails, the cycle
proceeds with balance 0 — reconciliation and adjustment still run, zero
submission attempts are made — and if the daily reset fires in that
cycle it snapshots initialDailyBalance as 0, which makes the daily-loss
check return true unconditionally; reconciliation and adjustment never
change initialDailyBalance, so it stays 0 until the next reset. -/
theorem C10_theorem (cfg : Config) (s s3 : TradingState) (assets : List String)
    (ind : String → IndicatorSnapshot) (env : CycleEnv)
    (hT : cfg.tradeEnabled = true) (hA : assets ≠ [])
    (hB : env.balance = none)
    (hs3 : s3 = adjust_trade_percentage cfg
      (reconcile (dailyResetCheck cfg s 0 env.now) env.checkWin)) :
    execute_trades cfg s assets ind env = (s3, []) ∧
    (shouldReset s env.now = true →
      (dailyResetCheck cfg s 0 env.now).initial_daily_balance = 0) ∧
    (∀ (s2 : TradingState) (b : ℚ), s2.initial_daily_balance = 0 →
      check_daily_loss_limit cfg s2 b = true) ∧
    (∀ (s2 : TradingState) (cw : ℕ → CheckWinResult),
      (reconcile s2 cw).initial_daily_balance = s2.initial_daily_balance) ∧
    (∀ s2 : TradingState,
      (adjust_trade_percentage cfg s2).initial_daily_balance = s2.initial_daily_balance) := by
  refine ⟨?_, ?_, ?_, ?_, ?_⟩
  · simp only [execute_trades, hB, Option.getD_none, ← hs3]
    rw [if_neg (by simp [hT]), if_neg hA]
    by_cases hc : check_daily_loss_limit cfg s3 0 = false
    · rw [if_pos hc]
    · rw [if_neg hc, if_pos le_rfl]
  · intro hr
    simp [dailyResetCheck, hr, reset_daily]
  · intro s2 b h2
    simp [check_daily_loss_limit, h2]
  · intro s2 cw
    exact reconcile_initial s2 cw
  · intro s2
    exact (adjust_fields cfg s2).2.2.1

/-- The initial state after its first daily reset fired at time 1000
with a failed balance query. -/
def sAfter : TradingState := { TradingState.init cfg0 with last_reset_time := some 1000 }

/-- Witness for C10_theorem: a failed balance query on the
very first cycle, where the daily reset fires with balance 0. -/
theorem C10_witness :
    execute_trades cfg0 (TradingState.init cfg0) ["EURUSD"] indSig envNoBal = (sAfter, []) ∧
    (dailyResetCheck cfg0 (TradingState.init cfg0) 0 envNoBal.now).initial_daily_balance = 0 ∧
    check_daily_loss_limit cfg0 sAfter 0 = true :=
  have h := C10_theorem cfg0 (TradingState.init cfg0) sAfter ["EURUSD"] indSig envNoBal
    rfl (by simp) rfl
    (by symm
        norm_num [adjust_trade_percentage, reconcile, dailyResetCheck, shouldReset,
          reset_daily, TradingState.init, sAfter, envNoBal, envSig, cfg0, min_def, max_def])
  ⟨h.1, h.2.1 rfl, h.2.2.1 sAfter 0 rfl⟩
